import Mathlib

/-!
Verification of the WirePlumber persistent-state facility (state.c), the
reserve-device plugin (module-reserve-device/plugin.c) and the daemon
wrapper (main.c) against their natural-language specification.

The C sources are shallowly embedded: C strings become `List Char`
(the NUL terminator is left implicit; `strlen` is `List.length`),
`WpProperties` bags and `GKeyFile` sections become association lists,
and the GObject state machines become explicit state-passing functions.
Side effects (writes to disk, emitted GObject signals, log notices) are
returned explicitly as lists.
-/

namespace WirePlumber

/-- C strings, modelled as lists of characters (NUL terminator implicit). -/
abbrev Str := List Char

/-! ### state.c: escape_string / compress_string

The on-disk key grammar escapes `\\`, space, `=`, `[` and `]` using the
single escape character `\\` (ESCAPED_CHARACTER in state.c). -/

/-- Encoding of one character of the input, following the `switch` in
escape_string (state.c lines 167-191): the five special characters become
two-character escape sequences, everything else passes through. -/
def escape_char (c : Char) : List Char :=
  if c = '\\' then ['\\', '\\']
  else if c = ' ' then ['\\', 's']
  else if c = '=' then ['\\', 'e']
  else if c = '[' then ['\\', 'o']
  else if c = ']' then ['\\', 'c']
  else [c]

/-- The escaping loop of escape_string: each input character contributes
its encoding, in order. -/
def escape_core : Str → Str
  | [] => []
  | c :: rest => escape_char c ++ escape_core rest

/-- Embedding of escape_string (state.c). The function returns NULL
(modelled as `none`) when the input is empty, per the guard
`g_return_val_if_fail (str_size > 0, NULL)`. -/
def escape_string (s : Str) : Option Str :=
  if s = [] then none else some (escape_core s)

/-- The character emitted by the `switch (str[i + 1])` of compress_string
when `str[i]` is the escape character: the five recognised sequences map
back to their raw character; for any other follower the `default` branch
emits the escape character itself (and the follower is consumed by the
`i++` that follows the switch). -/
def compress_pair (c2 : Char) : Char :=
  if c2 = '\\' then '\\'
  else if c2 = 's' then ' '
  else if c2 = 'e' then '='
  else if c2 = 'o' then '['
  else if c2 = 'c' then ']'
  else '\\'

/-- The decoding loop of compress_string (state.c lines 211-239): the loop
runs while `i < str_size - 1`, consuming two characters whenever the
current one is the escape character and one otherwise; a final character
left over when the loop exits is copied verbatim (lines 238-239). -/
def compress_core : Str → Str
  | [] => []
  | [c] => [c]
  | c1 :: c2 :: rest =>
    if c1 = '\\' then compress_pair c2 :: compress_core rest
    else c1 :: compress_core (c2 :: rest)

/-- Embedding of compress_string (state.c). Returns NULL (`none`) on the
empty string, per `g_return_val_if_fail (str_size > 0, NULL)`. -/
def compress_string (s : Str) : Option Str :=
  if s = [] then none else some (compress_core s)

/-- escape_char never produces the empty encoding. -/
theorem escape_char_ne_nil (c : Char) : escape_char c ≠ [] := by
  unfold escape_char
  split <;> try simp
  split <;> try simp
  split <;> try simp
  split <;> try simp
  split <;> simp

/-- escape_core maps the empty string to the empty string and nothing else. -/
theorem escape_core_eq_nil_iff (s : Str) : escape_core s = [] ↔ s = [] := by
  cases s with
  | nil => simp [escape_core]
  | cons c rest =>
    simp only [escape_core]
    constructor
    · intro h
      exact absurd (List.append_eq_nil.mp h).1 (escape_char_ne_nil c)
    · intro h; cases h

/-- Characters that escape to themselves are not the escape character. -/
theorem escape_char_single {c : Char} (h : escape_char c = [c]) : c ≠ '\\' := by
  intro hc
  subst hc
  simp [escape_char] at h

/-- Decoding undoes encoding character by character: prepending the
encoding of one character to any encoded tail decodes to that character
followed by the decoded tail. -/
theorem compress_core_escape_char (c : Char) (s : Str) :
    compress_core (escape_char c ++ escape_core s) =
      c :: compress_core (escape_core s) := by
  by_cases h1 : c = '\\'
  · subst h1; simp [escape_char, compress_core, compress_pair]
  · by_cases h2 : c = ' '
    · subst h2; simp [escape_char, compress_core, compress_pair]
    · by_cases h3 : c = '='
      · subst h3; simp [escape_char, compress_core, compress_pair]
      · by_cases h4 : c = '['
        · subst h4; simp [escape_char, compress_core, compress_pair]
        · by_cases h5 : c = ']'
          · subst h5; simp [escape_char, compress_core, compress_pair]
          · have hc : escape_char c = [c] := by
              simp [escape_char, h1, h2, h3, h4, h5]
            rw [hc]
            cases hs : escape_core s with
            | nil =>
              simp [compress_core]
            | cons d tail =>
              simp only [List.cons_append, List.nil_append]
              rw [compress_core]
              · simp [h1]

/-- Round trip at the core level: the decoding loop inverts the encoding
loop on every string (including the empty one). -/
theorem compress_core_escape_core (s : Str) :
    compress_core (escape_core s) = s := by
  induction s with
  | nil => simp [escape_core, compress_core]
  | cons c rest ih =>
    simp only [escape_core]
    rw [compress_core_escape_char c rest, ih]

/-- C2: as stated, the claim quantifies over every string s; the embedding
composes the two fallible functions with Option.bind. On the empty string,
escape_string returns NULL (the guard g_return_val_if_fail (str_size > 0,
NULL)), so the composition yields none rather than the original string:
the claim is false at s = "". -/
theorem C2_counterexample :
    (escape_string ([] : Str)).bind compress_string = none ∧
      ((escape_string ([] : Str)).bind compress_string ≠ some ([] : Str)) := by
  constructor
  · rfl
  · intro h
    simp [escape_string] at h

/-- C2 (amended): for every NONEMPTY string s, decoding the encoding of s
yields s again: compress_string (escape_string s) = s, where escape_string
maps the backslash, space, equals, opening bracket and closing bracket to
their two-character escape sequences and leaves every other character
unchanged, and compress_string is its inverse. -/
theorem C2_decode_encode (s : Str) (h : s ≠ []) :
    (escape_string s).bind compress_string = some s := by
  have hesc : escape_string s = some (escape_core s) := if_neg h
  have hne : escape_core s ≠ [] := by
    intro hnil
    exact h ((escape_core_eq_nil_iff s).mp hnil)
  rw [hesc, Option.some_bind, compress_string, if_neg hne,
    compress_core_escape_core]

/-- C2 witness: the round trip at the concrete nonempty string "a b". -/
theorem C2_decode_encode_witness :
    (escape_string ['a', ' ', 'b']).bind compress_string =
      some ['a', ' ', 'b'] :=
  C2_decode_encode ['a', ' ', 'b'] (by decide)

/-- C3: the claim states that for an unrecognised escape sequence both the
backslash and the following character appear unchanged in the decoded
output. At the concrete input "\x" the decoder emits only the backslash:
the default branch of the switch copies str[i] (the backslash) and the
i++ after the switch skips the follower, so the character x does not
appear in the output at all. -/
theorem C3_counterexample :
    compress_string ['\\', 'x'] = some ['\\'] ∧ 'x' ∉ (['\\'] : Str) := by
  constructor
  · rfl
  · decide

/-- C3 (amended): whenever the decoder encounters the escape character
followed by a character other than the five recognised followers, the
backslash appears unchanged in the decoded output but the following
character is consumed and dropped. -/
theorem C3_unrecognised_escape (c : Char) (rest : Str)
    (h : c ≠ '\\' ∧ c ≠ 's' ∧ c ≠ 'e' ∧ c ≠ 'o' ∧ c ≠ 'c') :
    compress_core ('\\' :: c :: rest) = '\\' :: compress_core rest := by
  obtain ⟨h1, h2, h3, h4, h5⟩ := h
  rw [compress_core]
  · simp [compress_pair, h1, h2, h3, h4, h5]

/-- C3 witness: at the concrete input "\xy" the decoder emits the
backslash, drops the x and continues with y. -/
theorem C3_unrecognised_escape_witness :
    compress_core ['\\', 'x', 'y'] = '\\' :: compress_core ['y'] :=
  C3_unrecognised_escape 'x' ['y'] (by decide)

/-! ### state.c: wp_state_save / wp_state_load

A WpProperties bag is an association list from keys to values; the
class invariant of WpProperties keeps keys unique. A GKeyFile is a list
of sections, each an association list of (key, value) entries; GLib's
set/get API behaves as a persisted key-value store per section, which is
how it is embedded here (the GLib serialisation layer is external to the
repository). -/

/-- Association lists from strings to strings: the common shape of a
WpProperties bag and of a GKeyFile section. -/
abbrev Props := List (Str × Str)

/-- Embedding of g_key_file_set_string at the section level: replace the
value of an existing key, otherwise append the new entry. -/
def g_key_file_set_string (kf : Props) (k v : Str) : Props :=
  if k ∈ kf.map Prod.fst then
    kf.map (fun e => if e.1 = k then (k, v) else e)
  else kf ++ [(k, v)]

/-- Embedding of wp_properties_set for non-null values: replace the value
of an existing key, otherwise append the new entry. -/
def wp_properties_set (props : Props) (k v : Str) : Props :=
  if k ∈ props.map Prod.fst then
    props.map (fun e => if e.1 = k then (k, v) else e)
  else props ++ [(k, v)]

/-- On-disk content of a state file as seen by wp_state_load:
g_key_file_load_from_file either fails (missing file, unreadable file or
parse error, all collapsed into loadFailed) or yields a parsed key file. -/
inductive DiskContent
  | loadFailed
  | keyfile (sections : List (Str × Props))
deriving DecidableEq

/-- Embedding of g_key_file_get_keys together with the per-key
g_key_file_get_string calls: the entries of the first section with the
given name, or NULL (`none`) when the key file has no such section. -/
def g_key_file_get_keys : List (Str × Props) → Str → Option Props
  | [], _ => none
  | s :: rest, name => if s.1 = name then some s.2 else g_key_file_get_keys rest name

/-- One iteration of the save loop of wp_state_save (state.c lines
473-482): escape the key and store the entry under the escaped key; if
escape_string returns NULL the entry is skipped (`if (escaped_key)`). -/
def save_step (kf : Props) (e : Str × Str) : Props :=
  match escape_string e.1 with
  | some ek => g_key_file_set_string kf ek e.2
  | none => kf

/-- Embedding of wp_state_save (state.c): build a key file holding a
single section named after the state, with one entry (escaped-key,
value) per property, and write it out. The write itself can fail with an
IOError; modelled here is the content that a successful
g_key_file_save_to_file persists. -/
def wp_state_save (name : Str) (props : Props) : DiskContent :=
  DiskContent.keyfile [(name, props.foldl save_step [])]

/-- One iteration of the load loop of wp_state_load (state.c lines
574-584): unescape the key and set the entry in the result bag; if
compress_string returns NULL the entry is skipped. -/
def load_step (props : Props) (e : Str × Str) : Props :=
  match compress_string e.1 with
  | some ck => wp_properties_set props ck e.2
  | none => props

/-- Embedding of wp_state_load (state.c): start from an empty bag; when
the key file cannot be loaded, or has no keys under the state's section,
return the empty bag; otherwise fill the bag from the section entries,
unescaping each key. -/
def wp_state_load (name : Str) (disk : DiskContent) : Props :=
  match disk with
  | .loadFailed => []
  | .keyfile sections =>
    match g_key_file_get_keys sections name with
    | none => []
    | some entries => entries.foldl load_step []

/-- Storing under a fresh key appends the entry. -/
theorem g_key_file_set_string_append (kf : Props) (k v : Str)
    (h : k ∉ kf.map Prod.fst) :
    g_key_file_set_string kf k v = kf ++ [(k, v)] := by
  rw [g_key_file_set_string, if_neg h]

/-- Setting a fresh key in a bag appends the entry. -/
theorem wp_properties_set_append (props : Props) (k v : Str)
    (h : k ∉ props.map Prod.fst) :
    wp_properties_set props k v = props ++ [(k, v)] := by
  rw [wp_properties_set, if_neg h]

/-- The save loop over properties with nonempty, distinct keys appends
one entry per property, escaping each key in order. -/
theorem save_fold_eq (props : Props) :
    ∀ kf : Props,
      (∀ e ∈ props, e.1 ≠ []) →
      (∀ e ∈ props, escape_core e.1 ∉ kf.map Prod.fst) →
      (props.map (fun e => escape_core e.1)).Nodup →
      props.foldl save_step kf =
        kf ++ props.map (fun e => (escape_core e.1, e.2)) := by
  induction props with
  | nil => intro kf _ _ _; simp
  | cons e rest ih =>
    intro kf hne hdisj hnodup
    have he : e.1 ≠ [] := hne e (List.mem_cons_self e rest)
    have hstep : save_step kf e =
        kf ++ [(escape_core e.1, e.2)] := by
      rw [save_step, escape_string, if_neg he]
      exact g_key_file_set_string_append kf (escape_core e.1) e.2
        (hdisj e (List.mem_cons_self e rest))
    simp only [List.foldl_cons, hstep]
    rw [ih (kf ++ [(escape_core e.1, e.2)])
      (fun x hx => hne x (List.mem_cons_of_mem e hx))
      ?_ (List.Nodup.of_cons (by simpa using hnodup))]
    · simp
    · intro x hx
      simp only [List.map_append, List.mem_append]
      push_neg
      refine ⟨hdisj x (List.mem_cons_of_mem e hx), ?_⟩
      intro hmem
      simp only [List.map_cons, List.nodup_cons] at hnodup
      have : escape_core x.1 ∈ rest.map (fun e => escape_core e.1) :=
        List.mem_map_of_mem _ hx
      simp only [List.map_cons, List.map_nil, List.mem_cons,
        List.not_mem_nil, or_false] at hmem
      exact hnodup.1 (hmem ▸ this)

/-- The load loop over entries with nonempty, distinct keys appends one
entry per line, unescaping each key in order. -/
theorem load_fold_eq (entries : Props) :
    ∀ acc : Props,
      (∀ e ∈ entries, e.1 ≠ []) →
      (∀ e ∈ entries, compress_core e.1 ∉ acc.map Prod.fst) →
      (entries.map (fun e => compress_core e.1)).Nodup →
      entries.foldl load_step acc =
        acc ++ entries.map (fun e => (compress_core e.1, e.2)) := by
  induction entries with
  | nil => intro acc _ _ _; simp
  | cons e rest ih =>
    intro acc hne hdisj hnodup
    have he : e.1 ≠ [] := hne e (List.mem_cons_self e rest)
    have hstep : load_step acc e =
        acc ++ [(compress_core e.1, e.2)] := by
      rw [load_step, compress_string, if_neg he]
      exact wp_properties_set_append acc (compress_core e.1) e.2
        (hdisj e (List.mem_cons_self e rest))
    simp only [List.foldl_cons, hstep]
    rw [ih (acc ++ [(compress_core e.1, e.2)])
      (fun x hx => hne x (List.mem_cons_of_mem e hx))
      ?_ (List.Nodup.of_cons (by simpa using hnodup))]
    · simp
    · intro x hx
      simp only [List.map_append, List.mem_append]
      push_neg
      refine ⟨hdisj x (List.mem_cons_of_mem e hx), ?_⟩
      intro hmem
      simp only [List.map_cons, List.nodup_cons] at hnodup
      have : compress_core x.1 ∈ rest.map (fun e => compress_core e.1) :=
        List.mem_map_of_mem _ hx
      simp only [List.map_cons, List.map_nil, List.mem_cons,
        List.not_mem_nil, or_false] at hmem
      exact hnodup.1 (hmem ▸ this)

/-- escape_core is injective, since compress_core undoes it. -/
theorem escape_core_injective : Function.Injective escape_core :=
  Function.LeftInverse.injective compress_core_escape_core

/-- C1: the claim quantifies over every Properties bag. A bag holding the
empty string as a key is a counterexample: escape_string returns NULL on
the empty key, wp_state_save skips the entry (`if (escaped_key)`), and
the subsequent wp_state_load returns an empty bag instead of the
original one. -/
theorem C1_counterexample :
    wp_state_load ['s'] (wp_state_save ['s'] [(([] : Str), ['x'])]) =
        ([] : Props) ∧
      wp_state_load ['s'] (wp_state_save ['s'] [(([] : Str), ['x'])]) ≠
        [(([] : Str), ['x'])] := by
  constructor
  · rfl
  · decide

/-- C1 (amended): for every Properties bag P with unique and NONEMPTY
string keys, saving P with wp_state_save and then calling wp_state_load
on the same state returns a Properties bag equal to P; moreover the file
carries one entry per property under the escaped key (in particular the
keys of the claim are written as the escaped entry names a\sb, c\ed,
\oe\c and \\f, as the witness shows at the concrete bag). -/
theorem C1_state_save_load (name : Str) (P : Props)
    (hkeys : (P.map Prod.fst).Nodup) (hne : ∀ e ∈ P, e.1 ≠ []) :
    wp_state_load name (wp_state_save name P) = P ∧
      wp_state_save name P =
        DiskContent.keyfile
          [(name, P.map (fun e => (escape_core e.1, e.2)))] := by
  have hkeysesc : (P.map (fun e => escape_core e.1)).Nodup := by
    have : P.map (fun e => escape_core e.1) =
        (P.map Prod.fst).map escape_core := by
      simp [List.map_map, Function.comp]
    rw [this]
    exact hkeys.map escape_core_injective
  have hsave : P.foldl save_step [] =
      P.map (fun e => (escape_core e.1, e.2)) := by
    have := save_fold_eq P [] hne (by simp) hkeysesc
    simpa using this
  refine ⟨?_, by rw [wp_state_save, hsave]⟩
  rw [wp_state_save, hsave, wp_state_load]
  have hsec : g_key_file_get_keys
      [(name, P.map (fun e => (escape_core e.1, e.2)))] name =
      some (P.map (fun e => (escape_core e.1, e.2))) := by
    simp [g_key_file_get_keys]
  rw [hsec]
  show List.foldl load_step []
    (P.map (fun e => (escape_core e.1, e.2))) = P
  have hload := load_fold_eq (P.map (fun e => (escape_core e.1, e.2))) []
    ?_ (by simp) ?_
  · rw [hload]
    have hpt : ∀ e ∈ P,
        ((fun e => (compress_core e.1, e.2)) ∘
          fun e => (escape_core e.1, e.2)) e = id e := by
      intro e _
      simp [Function.comp, compress_core_escape_core]
    simp only [List.nil_append, List.map_map]
    rw [List.map_congr_left hpt, List.map_id]
  · intro e he
    simp only [List.mem_map] at he
    obtain ⟨x, hx, hxe⟩ := he
    subst hxe
    intro hnil
    exact hne x hx ((escape_core_eq_nil_iff x.1).mp hnil)
  · have : (P.map (fun e => (escape_core e.1, e.2))).map
        (fun e => compress_core e.1) = P.map Prod.fst := by
      simp [List.map_map, Function.comp, compress_core_escape_core]
    rw [this]
    exact hkeys

/-- C1 witness: the concrete bag of the claim round-trips, and the file
content carries the four escaped entry names a\sb, c\ed, \oe\c and \\f. -/
theorem C1_state_save_load_witness :
    wp_state_load ['s'] (wp_state_save ['s']
        [(['a', ' ', 'b'], ['x']), (['c', '=', 'd'], ['y']),
         (['[', 'e', ']'], ['z']), (['\\', 'f'], ['w'])]) =
      [(['a', ' ', 'b'], ['x']), (['c', '=', 'd'], ['y']),
       (['[', 'e', ']'], ['z']), (['\\', 'f'], ['w'])] ∧
      wp_state_save ['s']
          [(['a', ' ', 'b'], ['x']), (['c', '=', 'd'], ['y']),
           (['[', 'e', ']'], ['z']), (['\\', 'f'], ['w'])] =
        DiskContent.keyfile [(['s'],
          [(['a', '\\', 's', 'b'], ['x']), (['c', '\\', 'e', 'd'], ['y']),
           (['\\', 'o', 'e', '\\', 'c'], ['z']),
           (['\\', '\\', 'f'], ['w'])])] :=
  C1_state_save_load ['s']
    [(['a', ' ', 'b'], ['x']), (['c', '=', 'd'], ['y']),
     (['[', 'e', ']'], ['z']), (['\\', 'f'], ['w'])]
    (by decide) (by decide)

/-- C5: wp_state_load is total on every on-disk content (it never fails:
the embedding returns a bag, never an error), and it returns the empty
bag when the key file cannot be loaded (missing file, unreadable file or
parse error), when the file has no section named after the state, and
when the section exists but holds no keys. -/
theorem C5_load_never_fails (name : Str) :
    (∀ disk : DiskContent, ∃ props : Props, wp_state_load name disk = props) ∧
      wp_state_load name DiskContent.loadFailed = [] ∧
      (∀ sections, g_key_file_get_keys sections name = none →
        wp_state_load name (DiskContent.keyfile sections) = []) ∧
      (∀ sections, g_key_file_get_keys sections name = some [] →
        wp_state_load name (DiskContent.keyfile sections) = []) := by
  refine ⟨fun disk => ⟨wp_state_load name disk, rfl⟩, rfl, ?_, ?_⟩
  · intro sections h
    simp [wp_state_load, h]
  · intro sections h
    simp [wp_state_load, h]

/-- C5 witness: the load outcomes at a concrete state named s, for an
unreadable file, an empty key file, and a key file whose section s has
no keys. -/
theorem C5_load_never_fails_witness :
    wp_state_load ['s'] DiskContent.loadFailed = [] ∧
      wp_state_load ['s'] (DiskContent.keyfile []) = [] ∧
      wp_state_load ['s'] (DiskContent.keyfile [(['s'], [])]) = [] :=
  ⟨(C5_load_never_fails ['s']).2.1,
   (C5_load_never_fails ['s']).2.2.1 [] (by decide),
   (C5_load_never_fails ['s']).2.2.2 [(['s'], [])] (by decide)⟩

/-! ### state.c: wp_state_save_after_timeout

The debounce fields of struct _WpState: timeout_source (the scheduled
GSource, modelled by whether a timer is pending) and timeout_props (the
ref-held properties to write when the timer fires). Writes performed by
wp_state_save are returned as a list of the bags written. -/

/-- The debounce-related state of a WpState object. -/
structure DebounceState where
  timeout_source : Bool
  timeout_props : Option Props
deriving DecidableEq

/-- Embedding of wp_state_save_after_timeout (state.c lines 526-541):
destroy and unref any pending timeout source, unref the previously held
properties, ref the newly supplied ones, and schedule a fresh timeout. -/
def wp_state_save_after_timeout (_st : DebounceState) (props : Props) :
    DebounceState :=
  { timeout_source := true, timeout_props := some props }

/-- Embedding of timeout_save_state_callback (state.c lines 492-504):
save the held properties (one write; a failure is only logged), then
clear the source and the held properties. -/
def timeout_save_state_callback (st : DebounceState) :
    DebounceState × List Props :=
  (⟨false, none⟩,
    match st.timeout_props with
    | some p => [p]
    | none => [])

/-- The main loop firing the debounce timer: the callback runs only when
a timeout source is still scheduled. -/
def fire_timeout (st : DebounceState) : DebounceState × List Props :=
  if st.timeout_source then timeout_save_state_callback st else (st, [])

/-- A debounce scenario: a sequence of wp_state_save_after_timeout calls,
all arriving before the timer fires, followed by the timer firing.
Returns the list of writes performed. -/
def debounce_run (st : DebounceState) (ps : List Props) : List Props :=
  (fire_timeout (ps.foldl wp_state_save_after_timeout st)).2

/-- After a nonempty sequence of calls, the state holds a scheduled timer
and the properties of the last call. -/
theorem saveAfterTimeout_foldl (ps : List Props) (p : Props)
    (h : ps.getLast? = some p) :
    ∀ st, ps.foldl wp_state_save_after_timeout st = ⟨true, some p⟩ := by
  induction ps with
  | nil => cases h
  | cons q rest ih =>
    intro st
    cases rest with
    | nil =>
      simp only [List.getLast?_singleton, Option.some.injEq] at h
      subst h
      rfl
    | cons r rest' =>
      rw [List.getLast?_cons_cons] at h
      simpa using ih h (wp_state_save_after_timeout st q)

/-- C4: if wp_state_save_after_timeout is called N >= 1 times on the same
state before the debounce timer fires, exactly one write to disk occurs,
carrying the Properties supplied by the last call; moreover each call
leaves the state with a (re)scheduled timer holding exactly the
newly-supplied properties, having discarded the previous ones. -/
theorem C4_debounce (st : DebounceState) (ps : List Props) (p : Props)
    (h : ps.getLast? = some p) :
    debounce_run st ps = [p] ∧
      (∀ st' props, wp_state_save_after_timeout st' props =
        ⟨true, some props⟩) := by
  refine ⟨?_, fun st' props => rfl⟩
  rw [debounce_run, saveAfterTimeout_foldl ps p h st]
  rfl

/-- C4 witness: two consecutive calls with a=1 and then a=2, followed by
the timer firing, produce exactly one write carrying a=2. -/
theorem C4_debounce_witness :
    debounce_run ⟨false, none⟩
        [[(['a'], ['1'])], [(['a'], ['2'])]] = [[(['a'], ['2'])]] ∧
      (∀ st' props, wp_state_save_after_timeout st' props =
        ⟨true, some props⟩) :=
  C4_debounce ⟨false, none⟩ [[(['a'], ['1'])], [(['a'], ['2'])]]
    [(['a'], ['2'])] (by decide)

/-! ### module-reserve-device/plugin.c

The plugin holds a hash table from reservation names to WpReserveDevice
objects, with rd_unref as the value-destroy function, and an optional
GDBusObjectManagerServer. Emitted GObject signals and logged notices are
returned explicitly. -/

/-- The connection states of the dbus-connection plugin handled by
on_dbus_state_changed. -/
inductive WpDBusConnectionState
  | closed
  | connecting
  | connected
deriving DecidableEq

/-- A reservation object, carrying the construction properties passed by
create-reservation. -/
structure WpReserveDevice where
  name : Str
  application_name : Str
  application_device_name : Str
  priority : Int
deriving DecidableEq

/-- GObject signals emitted on reservation objects. -/
inductive RdSignal
  | release (rd : WpReserveDevice)
deriving DecidableEq

/-- Log notices emitted by the plugin operations. -/
inductive LogNotice
  | notConnected
deriving DecidableEq

/-- The mutable state of WpReserveDevicePlugin: the reserve_devices hash
table (keyed by reservation name) and whether a manager is held. -/
structure WpReserveDevicePlugin where
  reserve_devices : List (Str × WpReserveDevice)
  manager : Bool
deriving DecidableEq

/-- Embedding of rd_unref (plugin.c lines 29-35), the value-destroy
function of the hash table: emit the release signal on the reservation
and drop the reference. -/
def rd_unref (rd : WpReserveDevice) : List RdSignal :=
  [RdSignal.release rd]

/-- g_hash_table_remove_all with rd_unref as value-destroy function:
every stored reservation is destroyed, which emits its release signal. -/
def g_hash_table_remove_all (tbl : List (Str × WpReserveDevice)) :
    List (Str × WpReserveDevice) × List RdSignal :=
  ([], tbl.flatMap (fun e => rd_unref e.2))

/-- g_hash_table_replace: store under the key, destroying (rd_unref) any
previously stored value for that key. -/
def g_hash_table_replace (tbl : List (Str × WpReserveDevice))
    (k : Str) (v : WpReserveDevice) :
    List (Str × WpReserveDevice) × List RdSignal :=
  if k ∈ tbl.map Prod.fst then
    (tbl.map (fun e => if e.1 = k then (k, v) else e),
     (tbl.filter (fun e => decide (e.1 = k))).flatMap (fun e => rd_unref e.2))
  else (tbl ++ [(k, v)], [])

/-- g_hash_table_remove: drop the entry with the key, if present,
destroying (rd_unref) its value. -/
def g_hash_table_remove (tbl : List (Str × WpReserveDevice)) (k : Str) :
    List (Str × WpReserveDevice) × List RdSignal :=
  (tbl.filter (fun e => decide (e.1 ≠ k)),
   (tbl.filter (fun e => decide (e.1 = k))).flatMap (fun e => rd_unref e.2))

/-- g_hash_table_lookup on the reservation table. -/
def g_hash_table_lookup :
    List (Str × WpReserveDevice) → Str → Option WpReserveDevice
  | [], _ => none
  | e :: rest, k => if e.1 = k then some e.2 else g_hash_table_lookup rest k

/-- Embedding of clear_reservation (plugin.c lines 37-42): remove all
reservations from the table (releasing each) and drop the manager. -/
def clear_reservation (self : WpReserveDevicePlugin) :
    WpReserveDevicePlugin × List RdSignal :=
  (⟨(g_hash_table_remove_all self.reserve_devices).1, false⟩,
   (g_hash_table_remove_all self.reserve_devices).2)

/-- Embedding of on_dbus_state_changed (plugin.c lines 44-72): on
CONNECTED a fresh object manager is created and attached; on CONNECTING
or CLOSED the reservations are cleared. -/
def on_dbus_state_changed (state : WpDBusConnectionState)
    (self : WpReserveDevicePlugin) :
    WpReserveDevicePlugin × List RdSignal :=
  match state with
  | .connected => ({ self with manager := true }, [])
  | .connecting => clear_reservation self
  | .closed => clear_reservation self

/-- Embedding of wp_reserve_device_plugin_create_reservation (plugin.c
lines 123-148): when not connected to D-Bus, log a notice and return
NULL; otherwise construct the reservation, store it in the table under
its own name (replacing and releasing any previous holder) and return
it. Result: (new plugin state, returned object, notices, signals). -/
def wp_reserve_device_plugin_create_reservation
    (dbus_state : WpDBusConnectionState) (self : WpReserveDevicePlugin)
    (name app_name app_dev_name : Str) (priority : Int) :
    WpReserveDevicePlugin × Option WpReserveDevice ×
      List LogNotice × List RdSignal :=
  if dbus_state ≠ WpDBusConnectionState.connected then
    (self, none, [LogNotice.notConnected], [])
  else
    let rd : WpReserveDevice := ⟨name, app_name, app_dev_name, priority⟩
    let repl := g_hash_table_replace self.reserve_devices rd.name rd
    ({ self with reserve_devices := repl.1 }, some rd, [], repl.2)

/-- Embedding of wp_reserve_device_plugin_destroy_reservation (plugin.c
lines 150-162): when not connected to D-Bus, log a notice and return;
otherwise remove the named reservation (releasing it if present). -/
def wp_reserve_device_plugin_destroy_reservation
    (dbus_state : WpDBusConnectionState) (self : WpReserveDevicePlugin)
    (name : Str) :
    WpReserveDevicePlugin × List LogNotice × List RdSignal :=
  if dbus_state ≠ WpDBusConnectionState.connected then
    (self, [LogNotice.notConnected], [])
  else
    let rem := g_hash_table_remove self.reserve_devices name
    ({ self with reserve_devices := rem.1 }, [], rem.2)

/-- Embedding of wp_reserve_device_plugin_get_reservation (plugin.c
lines 164-178): when not connected to D-Bus, log a notice and return
NULL; otherwise return the stored reservation, if any. The table is
never modified. -/
def wp_reserve_device_plugin_get_reservation
    (dbus_state : WpDBusConnectionState) (self : WpReserveDevicePlugin)
    (name : Str) :
    WpReserveDevicePlugin × Option WpReserveDevice × List LogNotice :=
  if dbus_state ≠ WpDBusConnectionState.connected then
    (self, none, [LogNotice.notConnected])
  else
    (self, g_hash_table_lookup self.reserve_devices name, [])

/-- A bind of per-value rd_unref singletons is a map of release signals. -/
theorem bind_rd_unref (tbl : List (Str × WpReserveDevice)) :
    tbl.flatMap (fun e => rd_unref e.2) =
      tbl.map (fun e => RdSignal.release e.2) := by
  induction tbl with
  | nil => rfl
  | cons e rest ih =>
    simp only [List.flatMap_cons, List.map_cons]
    rw [ih]
    rfl

/-- C6: when the D-Bus connection state changes to closed, every
reservation currently held by the plugin has its release signal emitted
(one per stored reservation object, via the rd_unref destroy function)
and the reservation table becomes empty. -/
theorem C6_bus_closed_releases_all (self : WpReserveDevicePlugin) :
    (on_dbus_state_changed WpDBusConnectionState.closed self).1.reserve_devices
        = [] ∧
      (on_dbus_state_changed WpDBusConnectionState.closed self).2 =
        self.reserve_devices.map (fun e => RdSignal.release e.2) := by
  refine ⟨rfl, ?_⟩
  show (g_hash_table_remove_all self.reserve_devices).2 = _
  rw [g_hash_table_remove_all]
  exact bind_rd_unref self.reserve_devices

/-- C7: if the D-Bus connection state is not connected, each of
create-reservation, destroy-reservation and get-reservation logs a
notice and leaves the plugin state unchanged, with create-reservation
and get-reservation returning NULL (and no release signal emitted). -/
theorem C7_not_connected_noop (s : WpDBusConnectionState)
    (self : WpReserveDevicePlugin) (name app_name app_dev_name : Str)
    (priority : Int) (h : s ≠ WpDBusConnectionState.connected) :
    wp_reserve_device_plugin_create_reservation s self name app_name
        app_dev_name priority = (self, none, [LogNotice.notConnected], []) ∧
      wp_reserve_device_plugin_destroy_reservation s self name =
        (self, [LogNotice.notConnected], []) ∧
      wp_reserve_device_plugin_get_reservation s self name =
        (self, none, [LogNotice.notConnected]) := by
  refine ⟨?_, ?_, ?_⟩
  · rw [wp_reserve_device_plugin_create_reservation, if_pos h]
  · rw [wp_reserve_device_plugin_destroy_reservation, if_pos h]
  · rw [wp_reserve_device_plugin_get_reservation, if_pos h]

/-- C7 witness: with the connection closed and a nonempty reservation
table, all three operations leave the table as it was, log the notice,
and the two lookups return NULL. -/
theorem C7_not_connected_noop_witness :
    wp_reserve_device_plugin_create_reservation
        WpDBusConnectionState.closed
        ⟨[(['d'], ⟨['d'], ['A'], ['D'], 0⟩)], true⟩
        ['d'] ['A'] ['D'] 7 =
      (⟨[(['d'], ⟨['d'], ['A'], ['D'], 0⟩)], true⟩, none,
        [LogNotice.notConnected], []) ∧
      wp_reserve_device_plugin_destroy_reservation
          WpDBusConnectionState.closed
          ⟨[(['d'], ⟨['d'], ['A'], ['D'], 0⟩)], true⟩ ['d'] =
        (⟨[(['d'], ⟨['d'], ['A'], ['D'], 0⟩)], true⟩,
          [LogNotice.notConnected], []) ∧
      wp_reserve_device_plugin_get_reservation
          WpDBusConnectionState.closed
          ⟨[(['d'], ⟨['d'], ['A'], ['D'], 0⟩)], true⟩ ['d'] =
        (⟨[(['d'], ⟨['d'], ['A'], ['D'], 0⟩)], true⟩, none,
          [LogNotice.notConnected]) :=
  C7_not_connected_noop WpDBusConnectionState.closed
    ⟨[(['d'], ⟨['d'], ['A'], ['D'], 0⟩)], true⟩
    ['d'] ['A'] ['D'] 7 (by decide)

/-! ### main.c: the daemon wrapper

The WpDaemon record of main.c carries the GMainLoop and the recorded
exit code; here the loop is modelled by a flag saying whether it is
still running (g_main_loop_quit clears it, after which no further
callbacks are dispatched). -/

/-- Exit code OK of enum WpExitCode (main.c), based on sysexits.h. -/
def WP_EXIT_OK : Nat := 0

/-- Exit code for a command line usage error. -/
def WP_EXIT_USAGE : Nat := 64

/-- Exit code for service unavailable. -/
def WP_EXIT_UNAVAILABLE : Nat := 69

/-- Exit code for an internal software error. -/
def WP_EXIT_SOFTWARE : Nat := 70

/-- Exit code for a configuration error. -/
def WP_EXIT_CONFIG : Nat := 78

/-- The daemon state: recorded exit code and whether the main loop is
still running. -/
structure WpDaemon where
  exit_code : Nat
  loop_running : Bool
deriving DecidableEq

/-- Embedding of daemon_exit (main.c lines 324-331): replace OK with an
error, but do not replace error with OK; then quit the main loop. -/
def daemon_exit (d : WpDaemon) (code : Nat) : WpDaemon :=
  { exit_code := if d.exit_code = WP_EXIT_OK then code else d.exit_code,
    loop_running := false }

/-- The Unix signals the daemon wrapper watches. -/
inductive Sig
  | sigint
  | sigterm
  | sighup
deriving DecidableEq

/-- Embedding of signal_handler (main.c lines 340-347) together with its
three per-signal wrappers registered by g_unix_signal_add: log a notice
and exit with OK. -/
def signal_handler (_sig : Sig) (d : WpDaemon) : WpDaemon :=
  daemon_exit d WP_EXIT_OK

/-- Embedding of on_disconnected (main.c lines 333-338): log a notice
and exit with OK. -/
def on_disconnected (d : WpDaemon) : WpDaemon :=
  daemon_exit d WP_EXIT_OK

/-- The error codes distinguished by the switch of on_core_activated:
the two named WpLibraryError values and a catch-all for the default
branch. -/
inductive WpLibraryErrorCode
  | serviceUnavailable
  | invalidArgument
  | other
deriving DecidableEq

/-- Embedding of on_core_activated (main.c lines 367-388): when
activation finished with an error, map the error code to an exit code
and quit; on success do nothing. -/
def on_core_activated (res : Option WpLibraryErrorCode) (d : WpDaemon) :
    WpDaemon :=
  match res with
  | none => d
  | some .serviceUnavailable => daemon_exit d WP_EXIT_UNAVAILABLE
  | some .invalidArgument => daemon_exit d WP_EXIT_CONFIG
  | some .other => daemon_exit d WP_EXIT_SOFTWARE

/-- The callbacks the main loop can dispatch to the daemon while it
runs. -/
inductive DaemonEvent
  | coreActivated (res : Option WpLibraryErrorCode)
  | disconnected
  | signal (sig : Sig)
deriving DecidableEq

/-- One main-loop dispatch: after g_main_loop_quit no further callback
runs. -/
def daemon_step (d : WpDaemon) (e : DaemonEvent) : WpDaemon :=
  if d.loop_running then
    match e with
    | .coreActivated res => on_core_activated res d
    | .disconnected => on_disconnected d
    | .signal sig => signal_handler sig d
  else d

/-- The main loop: dispatch the delivered events in order. -/
def g_main_loop_run (d : WpDaemon) (events : List DaemonEvent) : WpDaemon :=
  events.foldl daemon_step d

/-- The startup conditions main tests before entering the loop. -/
structure StartupInput where
  parse_ok : Bool
  show_version : Bool
  conf_ok : Bool
deriving DecidableEq

/-- Embedding of main (main.c lines 439-520): a command-line parse
failure returns WP_EXIT_USAGE; --version prints and returns WP_EXIT_OK;
a configuration file that cannot be loaded returns WP_EXIT_CONFIG;
otherwise the daemon enters the loop with exit_code OK, dispatches the
delivered events, and returns the recorded exit code. -/
def daemon_main (inp : StartupInput) (events : List DaemonEvent) : Nat :=
  if !inp.parse_ok then WP_EXIT_USAGE
  else if inp.show_version then WP_EXIT_OK
  else if !inp.conf_ok then WP_EXIT_CONFIG
  else (g_main_loop_run ⟨WP_EXIT_OK, true⟩ events).exit_code

/-- Once the loop has quit, further delivered events change nothing. -/
theorem g_main_loop_run_stopped (events : List DaemonEvent) :
    ∀ d : WpDaemon, d.loop_running = false →
      g_main_loop_run d events = d := by
  induction events with
  | nil => intro d _; rfl
  | cons e rest ih =>
    intro d h
    show g_main_loop_run (daemon_step d e) rest = d
    have hstep : daemon_step d e = d := by
      rw [daemon_step.eq_def, h]
      simp
    rw [hstep]
    exact ih d h

/-- daemon_exit always quits the loop. -/
theorem daemon_exit_quits (d : WpDaemon) (code : Nat) :
    (daemon_exit d code).loop_running = false := rfl

/-- C8: the daemon wrapper's exit code mapping holds for every startup
outcome: --version exits WP_EXIT_OK (0), a command-line parse failure
exits WP_EXIT_USAGE (64), a configuration file that cannot be loaded
exits WP_EXIT_CONFIG (78), core activation failing with
service-unavailable exits WP_EXIT_UNAVAILABLE (69), activation failing
with invalid-argument exits WP_EXIT_CONFIG (78), and any other
activation failure exits WP_EXIT_SOFTWARE (70), regardless of any
events delivered afterwards. -/
theorem C8_exit_codes (events rest : List DaemonEvent) :
    (∀ inp : StartupInput, inp.parse_ok = false →
      daemon_main inp events = 64) ∧
      (∀ inp : StartupInput, inp.parse_ok = true → inp.show_version = true →
        daemon_main inp events = 0) ∧
      (∀ inp : StartupInput, inp.parse_ok = true →
        inp.show_version = false → inp.conf_ok = false →
        daemon_main inp events = 78) ∧
      daemon_main ⟨true, false, true⟩
        (DaemonEvent.coreActivated (some .serviceUnavailable) :: rest) = 69 ∧
      daemon_main ⟨true, false, true⟩
        (DaemonEvent.coreActivated (some .invalidArgument) :: rest) = 78 ∧
      daemon_main ⟨true, false, true⟩
        (DaemonEvent.coreActivated (some .other) :: rest) = 70 := by
  have hact : ∀ (err : WpLibraryErrorCode) (code : Nat),
      on_core_activated (some err) ⟨WP_EXIT_OK, true⟩ =
        daemon_exit ⟨WP_EXIT_OK, true⟩ code →
      daemon_main ⟨true, false, true⟩
        (DaemonEvent.coreActivated (some err) :: rest) = code := by
    intro err code hcode
    show (g_main_loop_run ⟨WP_EXIT_OK, true⟩ _).exit_code = code
    show (g_main_loop_run
      (daemon_step ⟨WP_EXIT_OK, true⟩
        (DaemonEvent.coreActivated (some err))) rest).exit_code = code
    have hstep : daemon_step ⟨WP_EXIT_OK, true⟩
        (DaemonEvent.coreActivated (some err)) =
        daemon_exit ⟨WP_EXIT_OK, true⟩ code := hcode
    rw [hstep, g_main_loop_run_stopped rest _ (daemon_exit_quits _ _)]
    rfl
  refine ⟨?_, ?_, ?_, hact _ 69 rfl, hact _ 78 rfl, hact _ 70 rfl⟩
  · intro inp h
    rw [daemon_main, h]
    rfl
  · intro inp h1 h2
    rw [daemon_main, h1, h2]
    rfl
  · intro inp h1 h2 h3
    rw [daemon_main, h1, h2, h3]
    rfl

/-- C8 witness: the six concrete startup outcomes and their exit
codes. -/
theorem C8_exit_codes_witness :
    daemon_main ⟨false, false, true⟩ [] = 64 ∧
      daemon_main ⟨true, true, true⟩ [] = 0 ∧
      daemon_main ⟨true, false, false⟩ [] = 78 ∧
      daemon_main ⟨true, false, true⟩
        [DaemonEvent.coreActivated (some .serviceUnavailable)] = 69 ∧
      daemon_main ⟨true, false, true⟩
        [DaemonEvent.coreActivated (some .invalidArgument)] = 78 ∧
      daemon_main ⟨true, false, true⟩
        [DaemonEvent.coreActivated (some .other)] = 70 :=
  ⟨(C8_exit_codes [] []).1 ⟨false, false, true⟩ rfl,
   (C8_exit_codes [] []).2.1 ⟨true, true, true⟩ rfl rfl,
   (C8_exit_codes [] []).2.2.1 ⟨true, false, false⟩ rfl rfl rfl,
   (C8_exit_codes [] []).2.2.2.1,
   (C8_exit_codes [] []).2.2.2.2.1,
   (C8_exit_codes [] []).2.2.2.2.2⟩

/-- C9: receiving SIGINT, SIGTERM or SIGHUP initiates graceful shutdown
(the main loop quits) and, since the exit code recorded so far is OK,
the process exits with code 0; in particular a run whose startup
succeeded exits 0 when a signal arrives, whether before or after the
core activated successfully. -/
theorem C9_signal_exit_zero (sig : Sig) (rest : List DaemonEvent)
    (d : WpDaemon) (h : d.exit_code = WP_EXIT_OK) :
    (signal_handler sig d).loop_running = false ∧
      (signal_handler sig d).exit_code = WP_EXIT_OK ∧
      daemon_main ⟨true, false, true⟩ (DaemonEvent.signal sig :: rest) = 0 ∧
      daemon_main ⟨true, false, true⟩
        (DaemonEvent.coreActivated none :: DaemonEvent.signal sig :: rest)
        = 0 := by
  have hsig : ∀ d' : WpDaemon, d'.exit_code = WP_EXIT_OK →
      d'.loop_running = true →
      (g_main_loop_run d' (DaemonEvent.signal sig :: rest)).exit_code = 0 := by
    intro d' hd hrun
    show (g_main_loop_run (daemon_step d' (DaemonEvent.signal sig))
      rest).exit_code = 0
    have hstep : daemon_step d' (DaemonEvent.signal sig) =
        ⟨WP_EXIT_OK, false⟩ := by
      rw [daemon_step, hrun]
      show signal_handler sig d' = _
      rw [signal_handler, daemon_exit, hd]
      simp [WP_EXIT_OK]
    rw [hstep, g_main_loop_run_stopped rest _ rfl]
    rfl
  refine ⟨rfl, ?_, hsig ⟨WP_EXIT_OK, true⟩ rfl rfl, ?_⟩
  · show (daemon_exit d WP_EXIT_OK).exit_code = WP_EXIT_OK
    rw [daemon_exit, h]
    simp
  · show (g_main_loop_run
      (daemon_step ⟨WP_EXIT_OK, true⟩ (DaemonEvent.coreActivated none))
      (DaemonEvent.signal sig :: rest)).exit_code = 0
    exact hsig _ rfl rfl

/-- C9 witness: from a freshly started daemon, SIGTERM quits the loop
and the process exits 0, also when the core had already activated. -/
theorem C9_signal_exit_zero_witness :
    (signal_handler Sig.sigterm ⟨0, true⟩).loop_running = false ∧
      (signal_handler Sig.sigterm ⟨0, true⟩).exit_code = WP_EXIT_OK ∧
      daemon_main ⟨true, false, true⟩ [DaemonEvent.signal Sig.sigterm] = 0 ∧
      daemon_main ⟨true, false, true⟩
        [DaemonEvent.coreActivated none, DaemonEvent.signal Sig.sigterm]
        = 0 :=
  C9_signal_exit_zero Sig.sigterm [] ⟨0, true⟩ (by decide)

/-- C10: the recorded exit code never downgrades from an error to
success: for every sequence of daemon_exit calls on a daemon whose
stored exit code is already non-zero, the stored exit code is left
unchanged (in particular by a later call with code 0 from a signal or a
disconnect). -/
theorem C10_exit_code_monotone (codes : List Nat) (d : WpDaemon)
    (h : d.exit_code ≠ WP_EXIT_OK) :
    (codes.foldl daemon_exit d).exit_code = d.exit_code := by
  induction codes generalizing d with
  | nil => rfl
  | cons c rest ih =>
    show (rest.foldl daemon_exit (daemon_exit d c)).exit_code = d.exit_code
    have hstep : (daemon_exit d c).exit_code = d.exit_code := by
      rw [daemon_exit, if_neg h]
    rw [ih (daemon_exit d c) (by rw [hstep]; exact h), hstep]

/-- C10 witness: after an error exit with 69, later daemon_exit calls
with 0 (signal or disconnect) and 70 leave the stored code at 69. -/
theorem C10_exit_code_monotone_witness :
    ([0, 70].foldl daemon_exit ⟨69, false⟩).exit_code = 69 :=
  C10_exit_code_monotone [0, 70] ⟨69, false⟩ (by decide)

end WirePlumber
